import Mathlib

/-!
Verification of the staged resource loader of the `mainthreads` repository.

The development shallowly embeds the two source files:

* `src/wix-blog-list-optimizer.js` — class `WixBlogListOptimizer`, the staged
  script-loading pipeline (hint phase, critical phase, idle-scheduled phase,
  batched medium/deferred phase, on-demand optional phase, completion event);
* `src/wix-product-optimizer.js` — classes `WixProductPageOptimizer` and
  `WixJSOptimizer` (preload hints, in-place script annotation, guarded
  completion event).

The page is modelled as a list of `Elem` values (the `<script src>` and
`<link>` elements the loader reads and writes).  The single-threaded
event-loop execution of one optimization pass is linearized into a state
transformer producing a trace of events: the code under study is one promise
chain with no competing interleavings inside a pass, so the order in which the
source awaits and schedules its steps is exactly the order of the trace.
-/

/-! ## String helpers (JavaScript `String.prototype.includes` and `split('/')`) -/

/-- Boolean test that `pat` is a prefix of `s`, on character lists. -/
def charsStartsWith : List Char → List Char → Bool
  | [], _ => true
  | _ :: _, [] => false
  | a :: as, b :: bs => decide (a = b) && charsStartsWith as bs

/-- Boolean test that `pat` occurs somewhere inside `s`, on character lists. -/
def charsContains : List Char → List Char → Bool
  | [], pat => pat.isEmpty
  | c :: rest, pat => charsStartsWith pat (c :: rest) || charsContains rest pat

/-- JavaScript `s.includes(pat)`: true when `pat` occurs inside `s`
(the empty pattern occurs in every string). -/
def stringIncludes (s pat : String) : Bool :=
  charsContains s.toList pat.toList

/-- Split a character list at every occurrence of the separator character,
keeping empty groups, as JavaScript `split` does. -/
def splitOnChar (c : Char) : List Char → List (List Char)
  | [] => [[]]
  | a :: rest =>
    let r := splitOnChar c rest
    if a = c then [] :: r
    else
      match r with
      | [] => [[a]]
      | g :: gs => (a :: g) :: gs

/-- JavaScript `url.split('/').pop()`: the last `/`-separated segment of a URL. -/
def fileName (url : String) : String :=
  String.mk ((splitOnChar '/' url.toList).getLastD [])

/-- Join character-list segments with `'/'` (JavaScript `array.join('/')`). -/
def joinWithSlash : List (List Char) → List Char
  | [] => []
  | [g] => g
  | g :: gs => g ++ '/' :: joinWithSlash gs

/-- JavaScript `url.split('/').slice(-2).join('/')`: the last two
`/`-separated segments of a URL, joined back with `/`. -/
def lastTwoSegs (url : String) : String :=
  String.mk (joinWithSlash (((splitOnChar '/' url.toList).reverse.take 2).reverse))

/-! ## The document model -/

/-- Kind of a managed DOM element: the loader only creates and inspects
`<script>` and `<link>` elements. -/
inductive Tag where
  | script
  | link
deriving DecidableEq, Repr

/-- A managed DOM element.  `src` holds the `src` attribute of a script or the
`href` attribute of a link; `rel` is the link relation (empty for scripts);
`defer` and `async` are the script properties of the same names; `attrs` holds
the remaining attributes in insertion order. -/
structure Elem where
  tag : Tag
  src : String
  rel : String
  defer : Bool
  async : Bool
  attrs : List (String × String)
deriving DecidableEq, Repr

/-- Attribute-list lookup: does an attribute named `k` appear? -/
def hasAttrList : List (String × String) → String → Bool
  | [], _ => false
  | p :: rest, k => decide (p.1 = k) || hasAttrList rest k

/-- Attribute-list update modelling `setAttribute`: replace the value of the
first attribute named `k`, or append `(k, v)` when `k` is absent. -/
def setAttrList : List (String × String) → String → String → List (String × String)
  | [], k, v => [(k, v)]
  | p :: rest, k, v => if p.1 = k then (k, v) :: rest else p :: setAttrList rest k v

/-- Element `hasAttribute`. -/
def hasAttr (e : Elem) (k : String) : Bool :=
  hasAttrList e.attrs k

/-- Element `setAttribute`. -/
def setAttr (e : Elem) (k v : String) : Elem :=
  { e with attrs := setAttrList e.attrs k v }

theorem hasAttrList_setAttrList (l : List (String × String)) (k v : String) :
    hasAttrList (setAttrList l k v) k = true := by
  induction l with
  | nil => simp [setAttrList, hasAttrList]
  | cons p rest ih =>
    by_cases h : p.1 = k
    · simp [setAttrList, hasAttrList, h]
    · simp [setAttrList, hasAttrList, h, ih]

theorem hasAttrList_setAttrList_other (l : List (String × String)) (k k' v : String)
    (hne : k' ≠ k) : hasAttrList (setAttrList l k' v) k = hasAttrList l k := by
  induction l with
  | nil => simp [setAttrList, hasAttrList, hne]
  | cons p rest ih =>
    by_cases h : p.1 = k'
    · simp [setAttrList, hasAttrList, h, hne]
    · simp [setAttrList, hasAttrList, h, ih]

theorem hasAttr_setAttr (e : Elem) (k v : String) :
    hasAttr (setAttr e k v) k = true := by
  simp [hasAttr, setAttr, hasAttrList_setAttrList]

theorem hasAttr_setAttr_other (e : Elem) (k k' v : String) (hne : k' ≠ k) :
    hasAttr (setAttr e k' v) k = hasAttr e k := by
  simp [hasAttr, setAttr, hasAttrList_setAttrList_other _ _ _ _ hne]

theorem tag_setAttr (e : Elem) (k v : String) : (setAttr e k v).tag = e.tag := rfl

theorem src_setAttr (e : Elem) (k v : String) : (setAttr e k v).src = e.src := rfl

/-! ## `WixBlogListOptimizer` (src/wix-blog-list-optimizer.js) -/

namespace BlogList

/-- Deferred-tier (medium) script URLs, `this.deferredScripts`. -/
def reactUrl : String :=
  "https://static.parastorage.com/unpkg/react@18.3.1/umd/react.production.min.js"

def requirejsUrl : String :=
  "https://static.parastorage.com/unpkg/requirejs-bolt@2.3.6/requirejs.min.js"

def consentPolicyUrl : String :=
  "https://static.parastorage.com/services/wix-thunderbolt/dist/consentPolicy.c82a047f.chunk.min.js"

def animationsUrl : String :=
  "https://static.parastorage.com/services/wix-thunderbolt/dist/animations.67be3a64.chunk.min.js"

/-- Critical-tier (main) script URLs, `this.mainScripts`. -/
def mainBundleUrl : String :=
  "https://static.parastorage.com/services/wix-thunderbolt/dist/main.7120cb19.bundle.min.js"

def commonsBundleUrl : String :=
  "https://static.parastorage.com/services/wix-thunderbolt/dist/thunderbolt-commons.6e36e998.bundle.min.js"

/-- Optional-tier script URLs, `this.optionalScripts`. -/
def blogViewerUrl : String :=
  "https://static.parastorage.com/services/communities-blog-ooi/1.2764.0/BlogViewerWidgetNoCss.bundle.min.js"

def group6Url : String :=
  "https://static.parastorage.com/services/wix-thunderbolt/dist/group_6.9a28cbeb.chunk.min.js"

def formAppUrl : String :=
  "https://static.parastorage.com/services/form-app/1.1863.0/client-viewer/form-app-wix-ricos-viewer.chunk.min.js"

def deferredScripts : List String := [reactUrl, requirejsUrl, consentPolicyUrl, animationsUrl]

def mainScripts : List String := [mainBundleUrl, commonsBundleUrl]

def optionalScripts : List String := [blogViewerUrl, group6Url, formAppUrl]

/-- `[...this.deferredScripts, ...this.mainScripts, ...this.optionalScripts]`
as assembled in `removeExistingScripts`. -/
def allScripts : List String := deferredScripts ++ mainScripts ++ optionalScripts

/-- Options object passed to `loadScript`. -/
structure LoadOptions where
  priority : Option String
  defer : Bool
  async : Bool
  chunk : Bool
deriving DecidableEq, Repr

/-- Options of the critical phase: `{ priority: 'high', defer: false, chunk: true }`. -/
def criticalOpts : LoadOptions := ⟨some "high", false, false, true⟩

/-- Options of the react loads: `{ priority: 'low', defer: true, chunk: true }`. -/
def reactOpts : LoadOptions := ⟨some "low", true, false, true⟩

/-- Options of the batched loads: `{ priority: 'low', defer: true, async: true }`. -/
def batchOpts : LoadOptions := ⟨some "low", true, true, false⟩

/-- Options of on-demand optional loads: `{ priority: 'low', defer: true, async: true }`. -/
def onDemandOpts : LoadOptions := ⟨some "low", true, true, false⟩

/-- The script element `loadScript` creates: `src`, `crossOrigin = 'anonymous'`,
then `defer`/`async` per options, `fetchpriority` when a priority is given, and
`data-chunk-load` when chunked loading is requested. -/
def newScriptElem (src : String) (opts : LoadOptions) : Elem :=
  { tag := Tag.script, src := src, rel := "", defer := opts.defer, async := opts.async,
    attrs := [("crossorigin", "anonymous")]
      ++ (match opts.priority with
          | some p => [("fetchpriority", p)]
          | none => [])
      ++ (if opts.chunk then [("data-chunk-load", "true")] else []) }

/-- `document.querySelector('script[src*="<fileName src>"]')`: the first script
element whose `src` contains the file name (last path segment) of `src`. -/
def findExistingScript (doc : List Elem) (src : String) : Option Elem :=
  doc.find? (fun e => decide (e.tag = Tag.script) && stringIncludes e.src (fileName src))

/-- Settlement of the promise returned by `loadScript`. -/
inductive Settled where
  | fulfilled
  | rejected
deriving DecidableEq, Repr

/-- Settlement of the created script's load: the `onload` handler resolves; the
`onerror` handler logs the failure and also resolves, so the promise fulfills
whether or not the network load fails. -/
def scriptSettle (fails : String → Bool) (src : String) : Settled :=
  match fails src with
  | false => Settled.fulfilled
  | true => Settled.fulfilled

/-- `loadScript(src, options)`: when a script element whose `src` contains the
file name of `src` exists and is not marked `data-blog-optimized`, resolve
immediately without touching the document; otherwise create a new script
element with the classification flags applied and append it (the returned
promise settles via `scriptSettle`). -/
def loadScript (fails : String → Bool) (doc : List Elem) (src : String) (opts : LoadOptions) :
    List Elem × Settled :=
  match findExistingScript doc src with
  | some e =>
    if hasAttr e "data-blog-optimized" then
      (doc ++ [newScriptElem src opts], scriptSettle fails src)
    else
      (doc, Settled.fulfilled)
  | none => (doc ++ [newScriptElem src opts], scriptSettle fails src)

/-- `removeExistingScripts`: mark every script whose `src` contains the file
name of one of the managed URLs with `data-blog-optimized="true"` (the mark
means "to be replaced"; removal itself is delayed). -/
def removeExistingScripts (doc : List Elem) : List Elem :=
  doc.map fun e =>
    if decide (e.tag = Tag.script)
        && allScripts.any (fun url => stringIncludes e.src (fileName url)) then
      setAttr e "data-blog-optimized" "true"
    else e

/-- `handleUnusedScripts`: scripts matching an optional-tier file name receive
`data-defer-load` and are immediately removed from the document. -/
def handleUnusedScripts (doc : List Elem) : List Elem :=
  doc.filter fun e =>
    !(decide (e.tag = Tag.script)
      && optionalScripts.any (fun url => stringIncludes e.src (fileName url)))

/-- Preload hint created for each critical script in `preloadResources`. -/
def preloadLink (src : String) : Elem :=
  { tag := Tag.link, src := src, rel := "preload", defer := false, async := false,
    attrs := [("as", "script"), ("crossorigin", "anonymous"), ("fetchpriority", "high")] }

/-- The `dns-prefetch` hint appended by `preloadResources`. -/
def dnsPrefetchElem : Elem :=
  { tag := Tag.link, src := "//static.parastorage.com", rel := "dns-prefetch",
    defer := false, async := false, attrs := [] }

/-- The `preconnect` hint appended by `preloadResources`. -/
def preconnectElem : Elem :=
  { tag := Tag.link, src := "https://static.parastorage.com", rel := "preconnect",
    defer := false, async := false, attrs := [("crossorigin", "anonymous")] }

/-- `preloadResources`: unconditionally append a preload hint for every
critical script, then the `dns-prefetch` and `preconnect` hints.  The source
performs no existing-hint check here. -/
def preloadResources (doc : List Elem) : List Elem :=
  (doc ++ mainScripts.map preloadLink) ++ [dnsPrefetchElem, preconnectElem]

/-- Observable events of one optimization pass, in event-loop order. -/
inductive Event where
  | loadInit (url : String)
  | loadResult (url : String) (ok : Bool)
  | dispatchComplete
deriving DecidableEq, Repr

/-- State of one pass: the document, the event trace so far, the `isLoaded`
flag, and whether an uncaught exception aborted the pass. -/
structure PState where
  doc : List Elem
  trace : List Event
  isLoaded : Bool
  errored : Bool
deriving Repr

/-- Environment of a pass: availability of `requestIdleCallback`, which script
URLs fail to load, and how many elements the document holds matching the
blog-viewer marker selectors and the form marker selectors of
`loadOptionalScriptsOnDemand` (those selectors target arbitrary page content
outside the script/link registry modelled here). -/
structure BEnv where
  ric : Bool
  fails : String → Bool
  blogMarkers : Nat
  formMarkers : Nat

/-- One traced invocation of the loading primitive: the invocation (load
initiation) and its settlement are recorded and the document is updated by
`loadScript`. -/
def loadScriptT (fails : String → Bool) (opts : LoadOptions) (st : PState) (src : String) :
    PState :=
  { doc := (loadScript fails st.doc src opts).1,
    trace := st.trace ++ [Event.loadInit src, Event.loadResult src (!(fails src))],
    isLoaded := st.isLoaded, errored := st.errored }

/-- `loadCriticalScriptsChunked`: await each main script in order (the
inter-script `delay(50)` suspensions do not reorder anything). -/
def loadCriticalScriptsChunked (fails : String → Bool) (st : PState) : PState :=
  mainScripts.foldl (loadScriptT fails criticalOpts) st

/-- `this.deferredScripts.filter(url => url.includes('react'))`. -/
def reactScripts : List String := deferredScripts.filter (fun url => stringIncludes url "react")

/-- `this.deferredScripts.filter(url => !url.includes('react'))`. -/
def otherScripts : List String := deferredScripts.filter (fun url => !(stringIncludes url "react"))

/-- Slicing of `otherScripts` into batches of `batchSize = 2`, as the loop
`for (let i = 0; i < otherScripts.length; i += batchSize)` produces them. -/
def chunk2 : List String → List (List String)
  | [] => []
  | [a] => [[a]]
  | a :: b :: rest => [a, b] :: chunk2 rest

/-- `onOptimizationComplete` of the blog-list class: set `isLoaded` and
dispatch the completion event.  The source has no guard against repeated
invocation. -/
def onOptimizationComplete (st : PState) : PState :=
  { st with isLoaded := true, trace := st.trace ++ [Event.dispatchComplete] }

/-- Body of the idle callback registered by `loadOptionalScriptsOnDemand`:
when blog-viewer marker elements exist, load the optional scripts whose URL
contains `BlogViewerWidget`; when form marker elements exist, load those whose
URL contains `form-app`. -/
def loadOptionalScriptsBody (env : BEnv) (st : PState) : PState :=
  let st1 :=
    if 0 < env.blogMarkers then
      optionalScripts.foldl
        (fun s url => if stringIncludes url "BlogViewerWidget" then
            loadScriptT env.fails onDemandOpts s url
          else s) st
    else st
  if 0 < env.formMarkers then
    optionalScripts.foldl
      (fun s url => if stringIncludes url "form-app" then
          loadScriptT env.fails onDemandOpts s url
        else s) st1
  else st1

/-- `loadNonCriticalScripts`: await the react loads in order, then the batches
of two with `Promise.allSettled` (each batch's promises are created, hence the
loads initiated, in insertion order; a settled batch never rejects).  Then
`loadOptionalScriptsOnDemand()` runs: it calls `requestIdleCallback`
unconditionally, so when that primitive is unavailable a `ReferenceError`
propagates and `onOptimizationComplete()` on the next line is never reached.
When it is available, the optional work is only scheduled, so the completion
event is dispatched first and the idle callback body runs afterwards. -/
def loadNonCriticalScripts (env : BEnv) (st : PState) : PState :=
  let st1 := reactScripts.foldl (loadScriptT env.fails reactOpts) st
  let st2 := (chunk2 otherScripts).foldl
    (fun s batch => batch.foldl (loadScriptT env.fails batchOpts) s) st1
  if env.ric then
    loadOptionalScriptsBody env (onOptimizationComplete st2)
  else
    { st2 with errored := true }

/-- `startOptimization` followed by the phases it chains: mark existing managed
scripts, drop optional ones, await the critical loader, then (through
`scheduleNonCriticalLoading`, which falls back to `setTimeout` when
`requestIdleCallback` is missing and therefore always fires) run
`loadNonCriticalScripts`. -/
def startOptimization (env : BEnv) (doc : List Elem) : PState :=
  loadNonCriticalScripts env
    (loadCriticalScriptsChunked env.fails
      { doc := handleUnusedScripts (removeExistingScripts doc),
        trace := [], isLoaded := false, errored := false })

/-- `initPerformanceOptimization`: `preloadResources()` runs first, then the
optimization pass. -/
def initPerformanceOptimization (env : BEnv) (doc : List Elem) : PState :=
  startOptimization env (preloadResources doc)

/-- `startOptimization` when an unexpected exception is raised inside its
synchronous setup steps (`removeExistingScripts` / `handleUnusedScripts`).
The source wraps none of this in `try`/`catch`, so the exception propagates
out of `startOptimization`: the critical loader, the idle scheduling and
`onOptimizationComplete` never run and no event is dispatched.  The document
is left in whatever partial state the setup reached; only the trace and flags
matter to the statements below. -/
def startOptimizationSetupFailure (doc : List Elem) : PState :=
  { doc := doc, trace := [], isLoaded := false, errored := true }

/-- URLs of the load initiations of a trace, in order. -/
def initUrls (tr : List Event) : List String :=
  tr.filterMap fun e =>
    match e with
    | Event.loadInit u => some u
    | _ => none

/-- Number of completion-event dispatches in a trace. -/
def completeCount (tr : List Event) : Nat :=
  (tr.filter fun e =>
    match e with
    | Event.dispatchComplete => true
    | _ => false).length

end BlogList

/-! ## Append-if-missing folds

Both hint routines of `WixProductPageOptimizer` and `WixJSOptimizer` walk a
list of candidates and append a freshly built element exactly when a
document-level test finds no existing one.  The idempotence arguments are
identical, so they are proved once over this generic fold. -/

/-- Fold appending `make x` for every candidate `x` whose `test` finds no
existing element in the (live) document. -/
def addMissing {α : Type} (test : List Elem → α → Bool) (make : α → Elem)
    (doc : List Elem) (xs : List α) : List Elem :=
  xs.foldl (fun d x => if test d x then d else d ++ [make x]) doc

theorem addMissing_ext {α : Type} (test : List Elem → α → Bool) (make : α → Elem)
    (xs : List α) (doc : List Elem) :
    ∃ ext, addMissing test make doc xs = doc ++ ext := by
  induction xs generalizing doc with
  | nil => exact ⟨[], by simp [addMissing]⟩
  | cons x rest ih =>
    by_cases h : test doc x
    · obtain ⟨ext, hext⟩ := ih doc
      exact ⟨ext, by simpa [addMissing, h] using hext⟩
    · obtain ⟨ext, hext⟩ := ih (doc ++ [make x])
      exact ⟨[make x] ++ ext, by simp [addMissing, h] at hext ⊢; simpa using hext⟩

theorem addMissing_test_mono {α : Type} (test : List Elem → α → Bool) (make : α → Elem)
    (hmono : ∀ d ext x, test d x = true → test (d ++ ext) x = true)
    (xs : List α) (doc : List Elem) (x : α) (hx : test doc x = true) :
    test (addMissing test make doc xs) x = true := by
  obtain ⟨ext, hext⟩ := addMissing_ext test make xs doc
  rw [hext]; exact hmono _ _ _ hx

theorem addMissing_covers {α : Type} (test : List Elem → α → Bool) (make : α → Elem)
    (hmono : ∀ d ext x, test d x = true → test (d ++ ext) x = true)
    (hself : ∀ d x, test (d ++ [make x]) x = true)
    (xs : List α) (doc : List Elem) :
    ∀ x ∈ xs, test (addMissing test make doc xs) x = true := by
  induction xs generalizing doc with
  | nil => simp
  | cons a rest ih =>
    intro x hx
    rcases List.mem_cons.1 hx with rfl | hx
    · by_cases h : test doc x
      · simpa [addMissing, h] using
          addMissing_test_mono test make hmono rest doc x h
      · simpa [addMissing, h] using
          addMissing_test_mono test make hmono rest (doc ++ [make x]) x (hself doc x)
    · by_cases h : test doc a
      · simpa [addMissing, h] using ih doc x hx
      · simpa [addMissing, h] using ih (doc ++ [make a]) x hx

theorem addMissing_of_covered {α : Type} (test : List Elem → α → Bool) (make : α → Elem)
    (xs : List α) (doc : List Elem) (h : ∀ x ∈ xs, test doc x = true) :
    addMissing test make doc xs = doc := by
  induction xs with
  | nil => simp [addMissing]
  | cons a rest ih =>
    have ha : test doc a = true := h a (by simp)
    simpa [addMissing, ha] using ih (fun x hx => h x (by simp [hx]))

/-! ## `WixProductPageOptimizer` (src/wix-product-optimizer.js, first class) -/

namespace ProductPage

/-- `this.preloadableScripts`. -/
def preloadableScripts : List String :=
  ["https://static.parastorage.com/services/wix-thunderbolt/dist/main.7120cb19.bundle.min.js",
   "https://static.parastorage.com/services/wix-thunderbolt/dist/thunderbolt-commons.6e36e998.bundle.min.js",
   "https://static.parastorage.com/unpkg/react@18.3.1/umd/react.production.min.js"]

/-- `this.deferableScripts`. -/
def deferableScripts : List String :=
  ["https://static.parastorage.com/services/editor-elements-library/dist/thunderbolt/rb_wixui.thunderbolt[ProGallery_Default].0cb576c2.bundle.min.js",
   "https://static.parastorage.com/services/wix-thunderbolt/dist/animations.67be3a64.chunk.min.js",
   "https://static.parastorage.com/services/form-app/1.1863.0/client-viewer/form-app-wix-ricos-viewer.chunk.min.js",
   "https://browser.sentry-cdn.com/7.120.3/bundle.tracing.es5.min.js"]

/-- Preload hint built in `addResourcePreloads` (`rel="preload"`, `as="script"`,
`crossorigin`, marked `data-wix-optimized="true"`). -/
def ppPreloadLink (src : String) : Elem :=
  { tag := Tag.link, src := src, rel := "preload", defer := false, async := false,
    attrs := [("as", "script"), ("crossorigin", "anonymous"), ("data-wix-optimized", "true")] }

/-- `hasExistingPreload`: `document.querySelector('link[rel="preload"][href="<src>"]')`
— an exact-URL match. -/
def hasExistingPreload (doc : List Elem) (src : String) : Bool :=
  doc.any fun e => decide (e.tag = Tag.link ∧ e.rel = "preload" ∧ e.src = src)

/-- Connection hints of `addConnectionOptimizations`: relation, href and
whether `crossOrigin` is set. -/
def connOpts : List (String × String × Bool) :=
  [("dns-prefetch", "//static.parastorage.com", false),
   ("preconnect", "https://static.parastorage.com", true),
   ("dns-prefetch", "//browser.sentry-cdn.com", false)]

/-- Existing-hint test of `addConnectionOptimizations`:
`document.querySelector('link[rel="<rel>"][href="<href>"]')`. -/
def hasExistingConn (doc : List Elem) (opt : String × String × Bool) : Bool :=
  doc.any fun e => decide (e.tag = Tag.link ∧ e.rel = opt.1 ∧ e.src = opt.2.1)

/-- Connection hint element built in `addConnectionOptimizations`. -/
def connLink (opt : String × String × Bool) : Elem :=
  { tag := Tag.link, src := opt.2.1, rel := opt.1, defer := false, async := false,
    attrs := (if opt.2.2 then [("crossorigin", "anonymous")] else [])
      ++ [("data-wix-optimized", "true")] }

/-- `addConnectionOptimizations`: append each connection hint unless one with
the same relation and href exists. -/
def addConnectionOptimizations (doc : List Elem) : List Elem :=
  addMissing hasExistingConn connLink doc connOpts

/-- `addResourcePreloads`: append a preload hint for each preloadable script
unless `hasExistingPreload` finds one with that exact URL, then add the
connection optimizations. -/
def addResourcePreloads (doc : List Elem) : List Elem :=
  addConnectionOptimizations (addMissing hasExistingPreload ppPreloadLink doc preloadableScripts)

/-- Per-element body of `enhanceExistingScripts`: scripts already carrying
`data-wix-optimized` are left alone; preloadable scripts get
`fetchpriority="high"` and the mark `enhanced`; deferable scripts that are
neither `async` nor `defer` get `defer` and the mark `deferred`; everything
else is untouched. -/
def enhanceScriptElem (e : Elem) : Elem :=
  if decide (e.tag ≠ Tag.script) then e
  else if hasAttr e "data-wix-optimized" then e
  else if preloadableScripts.any (fun url => stringIncludes e.src (fileName url)) then
    setAttr (setAttr e "fetchpriority" "high") "data-wix-optimized" "enhanced"
  else if deferableScripts.any (fun url => stringIncludes e.src (fileName url)) then
    if e.async || e.defer then e
    else setAttr { e with defer := true } "data-wix-optimized" "deferred"
  else e

/-- `enhanceExistingScripts` over all `script[src]` elements of the document. -/
def enhanceExistingScripts (doc : List Elem) : List Elem :=
  doc.map enhanceScriptElem

/-- `deferHeavyComponents`: give the first `script[src*="ProGallery"]` element,
when present and not yet optimized, the attributes `data-lazy-load` and
`data-wix-optimized="lazy"`. -/
def deferHeavyComponents : List Elem → List Elem
  | [] => []
  | e :: rest =>
    if decide (e.tag = Tag.script) && stringIncludes e.src "ProGallery" then
      if hasAttr e "data-wix-optimized" then e :: rest
      else setAttr (setAttr e "data-lazy-load" "true") "data-wix-optimized" "lazy" :: rest
    else e :: deferHeavyComponents rest

/-- `setupLazyLoading`'s synchronous document effect: heavy components are
deferred only when not on a product page (the observers it also installs act
later and are outside the setup steps modelled here). -/
def setupLazyLoadingDoc (isProductPage : Bool) (doc : List Elem) : List Elem :=
  if isProductPage then doc else deferHeavyComponents doc

/-- Completion record carried by the `wix-product-optimization-complete`
event (its discrete fields; the timings are not modelled). -/
structure CompletionDetail where
  isProductPage : Bool
  failedScripts : List String
  method : String
deriving DecidableEq, Repr

/-- State of one pass of the product optimizer: the `isLoaded` guard flag, the
`failedScripts` set and the completion records dispatched so far. -/
structure PPState where
  isLoaded : Bool
  failedScripts : List String
  dispatched : List CompletionDetail
deriving DecidableEq, Repr

/-- State at the start of a pass. -/
def freshPP : PPState := ⟨false, [], []⟩

/-- `onOptimizationComplete` of the product optimizer: `if (this.isLoaded)
return;` then set the flag and dispatch the completion record with
`method: 'safe-enhancement'`. -/
def onOptimizationComplete (isProductPage : Bool) (st : PPState) : PPState :=
  if st.isLoaded then st
  else ⟨true, st.failedScripts,
    st.dispatched ++ [⟨isProductPage, st.failedScripts, "safe-enhancement"⟩]⟩

/-- Error listener installed by `monitorPerformance`: a failed script load is
added to the `failedScripts` set and nothing else happens. -/
def recordScriptError (st : PPState) (src : String) : PPState :=
  if decide (src ∈ st.failedScripts) then st
  else ⟨st.isLoaded, st.failedScripts ++ [src], st.dispatched⟩

/-- The four setup steps `startSafeOptimization` runs inside its `try` block:
`addResourcePreloads`, `enhanceExistingScripts`, `setupLazyLoading` and
`monitorPerformance` (the last only registers listeners). -/
def setupSteps (isProductPage : Bool) : List (List Elem → List Elem) :=
  [addResourcePreloads, enhanceExistingScripts, setupLazyLoadingDoc isProductPage, fun d => d]

/-- Apply a list of document transformers in order. -/
def runSteps (fs : List (List Elem → List Elem)) (doc : List Elem) : List Elem :=
  fs.foldl (fun d f => f d) doc

/-- `startSafeOptimization`: the setup steps run inside `try`/`catch`.
`throwAt = some i` with `i < 4` models an unexpected exception inside step
`i`: the earlier steps have completed, the `catch` handler immediately calls
`onOptimizationComplete()` and no further step executes.  Otherwise all four
steps run and completion is left to the monitoring callbacks.  The result
carries the document, the pass state and the number of completed steps. -/
def startSafeOptimization (throwAt : Option Nat) (isProductPage : Bool)
    (doc : List Elem) (st : PPState) : List Elem × PPState × Nat :=
  match throwAt with
  | some i =>
    if i < 4 then
      (runSteps ((setupSteps isProductPage).take i) doc, onOptimizationComplete isProductPage st, i)
    else (runSteps (setupSteps isProductPage) doc, st, 4)
  | none => (runSteps (setupSteps isProductPage) doc, st, 4)

end ProductPage

/-! ## `WixJSOptimizer` (src/wix-product-optimizer.js, second class) -/

namespace JSOpt

/-- `this.criticalScripts`. -/
def criticalScripts : List String :=
  ["https://static.parastorage.com/services/wix-thunderbolt/dist/main.7120cb19.bundle.min.js",
   "https://static.parastorage.com/services/wix-thunderbolt/dist/thunderbolt-commons.6e36e998.bundle.min.js",
   "https://static.parastorage.com/unpkg/react@18.3.1/umd/react.production.min.js",
   "https://static.parastorage.com/unpkg/requirejs-bolt@2.3.6/requirejs.min.js"]

/-- `this.deferableScripts`. -/
def deferableScripts : List String :=
  ["https://static.parastorage.com/services/editor-elements-library/dist/thunderbolt/rb_wixui.thunderbolt[ProGallery_Default].0cb576c2.bundle.min.js",
   "https://static.parastorage.com/services/wix-thunderbolt/dist/animations.67be3a64.chunk.min.js",
   "https://static.parastorage.com/services/wix-thunderbolt/dist/group_6.9a28cbeb.chunk.min.js",
   "https://static.parastorage.com/services/wix-thunderbolt/dist/consentPolicy.c82a047f.chunk.min.js",
   "https://static.parastorage.com/services/editor-elements-library/dist/thunderbolt/rb_wixui.thunderbolt[RichContentViewer].f51859d2.bundle.min.js",
   "https://static.parastorage.com/services/editor-elements-library/dist/thunderbolt/rb_wixui.thunderbolt_menu.069648f0.bundle.min.js",
   "https://static.parastorage.com/services/form-app/1.1863.0/client-viewer/form-app-wix-ricos-viewer.chunk.min.js",
   "https://static.parastorage.com/services/ecom-platform-cart-icon/1.1570.0/CartIconViewerWidgetNoCss.bundle.min.js"]

/-- `this.optionalScripts`. -/
def optionalScripts : List String :=
  ["https://browser.sentry-cdn.com/7.120.3/bundle.tracing.es5.min.js"]

/-- Matching used by `isCriticalScript` / `isDeferableScript` /
`isOptionalScript`: the element's `src` contains the URL's file name or its
last two path segments. -/
def jsMatches (urls : List String) (src : String) : Bool :=
  urls.any fun url =>
    stringIncludes src (fileName url) || stringIncludes src (lastTwoSegs url)

/-- Per-element body of the `WixJSOptimizer` variant of
`enhanceExistingScripts`: skip scripts already carrying `data-wix-optimized`;
critical scripts get `fetchpriority="high"` and the mark `high-priority`;
deferable scripts that are neither `async` nor `defer` get `defer`, the mark
`deferred` and, on mobile, `loading="lazy"`; optional scripts get
`fetchpriority="low"`, the mark `low-priority` and, on mobile,
`loading="lazy"`. -/
def enhanceScriptElem (isMobile : Bool) (e : Elem) : Elem :=
  if decide (e.tag ≠ Tag.script) then e
  else if hasAttr e "data-wix-optimized" then e
  else if jsMatches criticalScripts e.src then
    setAttr (setAttr e "fetchpriority" "high") "data-wix-optimized" "high-priority"
  else if jsMatches deferableScripts e.src then
    if e.async || e.defer then e
    else
      let e1 := setAttr { e with defer := true } "data-wix-optimized" "deferred"
      if isMobile then setAttr e1 "loading" "lazy" else e1
  else if jsMatches optionalScripts e.src then
    let e1 := setAttr (setAttr e "fetchpriority" "low") "data-wix-optimized" "low-priority"
    if isMobile then setAttr e1 "loading" "lazy" else e1
  else e

/-- `enhanceExistingScripts` of `WixJSOptimizer` over the whole document. -/
def enhanceExistingScripts (isMobile : Bool) (doc : List Elem) : List Elem :=
  doc.map (enhanceScriptElem isMobile)

end JSOpt

/-! ## Trace lemmas for the blog-list pipeline -/

namespace BlogList

theorem initUrls_append (a b : List Event) : initUrls (a ++ b) = initUrls a ++ initUrls b := by
  simp [initUrls]

theorem completeCount_append (a b : List Event) :
    completeCount (a ++ b) = completeCount a + completeCount b := by
  simp [completeCount, List.filter_append]

theorem initUrls_loadScriptT (fails : String → Bool) (opts : LoadOptions) (st : PState)
    (src : String) : initUrls (loadScriptT fails opts st src).trace = initUrls st.trace ++ [src] := by
  simp [loadScriptT, initUrls]

theorem completeCount_loadScriptT (fails : String → Bool) (opts : LoadOptions) (st : PState)
    (src : String) : completeCount (loadScriptT fails opts st src).trace = completeCount st.trace := by
  simp [loadScriptT, completeCount, List.filter_append]

theorem initUrls_foldl (fails : String → Bool) (opts : LoadOptions) (urls : List String)
    (st : PState) :
    initUrls ((urls.foldl (loadScriptT fails opts) st).trace) = initUrls st.trace ++ urls := by
  induction urls generalizing st with
  | nil => simp
  | cons u rest ih => simp [List.foldl_cons, ih, initUrls_loadScriptT]

theorem completeCount_foldl (fails : String → Bool) (opts : LoadOptions) (urls : List String)
    (st : PState) :
    completeCount ((urls.foldl (loadScriptT fails opts) st).trace) = completeCount st.trace := by
  induction urls generalizing st with
  | nil => simp
  | cons u rest ih => simp [List.foldl_cons, ih, completeCount_loadScriptT]

theorem errored_foldl (fails : String → Bool) (opts : LoadOptions) (urls : List String)
    (st : PState) : ((urls.foldl (loadScriptT fails opts) st).errored) = st.errored := by
  induction urls generalizing st with
  | nil => rfl
  | cons u rest ih => simp [List.foldl_cons, ih, loadScriptT]

theorem isLoaded_foldl (fails : String → Bool) (opts : LoadOptions) (urls : List String)
    (st : PState) : ((urls.foldl (loadScriptT fails opts) st).isLoaded) = st.isLoaded := by
  induction urls generalizing st with
  | nil => rfl
  | cons u rest ih => simp [List.foldl_cons, ih, loadScriptT]

theorem chunk2_join : ∀ ls : List String, (chunk2 ls).flatten = ls
  | [] => by simp [chunk2]
  | [a] => by simp [chunk2]
  | a :: b :: rest => by simp [chunk2, chunk2_join rest]

theorem initUrls_chunkFoldl (fails : String → Bool) (opts : LoadOptions)
    (chunks : List (List String)) (st : PState) :
    initUrls ((chunks.foldl (fun s batch => batch.foldl (loadScriptT fails opts) s) st).trace)
      = initUrls st.trace ++ chunks.flatten := by
  induction chunks generalizing st with
  | nil => simp
  | cons b rest ih => simp [List.foldl_cons, ih, initUrls_foldl, List.append_assoc]

theorem completeCount_chunkFoldl (fails : String → Bool) (opts : LoadOptions)
    (chunks : List (List String)) (st : PState) :
    completeCount ((chunks.foldl (fun s batch => batch.foldl (loadScriptT fails opts) s) st).trace)
      = completeCount st.trace := by
  induction chunks generalizing st with
  | nil => simp
  | cons b rest ih => simp [List.foldl_cons, ih, completeCount_foldl]

theorem errored_chunkFoldl (fails : String → Bool) (opts : LoadOptions)
    (chunks : List (List String)) (st : PState) :
    ((chunks.foldl (fun s batch => batch.foldl (loadScriptT fails opts) s) st).errored)
      = st.errored := by
  induction chunks generalizing st with
  | nil => rfl
  | cons b rest ih => simp [List.foldl_cons, ih, errored_foldl]

theorem isLoaded_chunkFoldl (fails : String → Bool) (opts : LoadOptions)
    (chunks : List (List String)) (st : PState) :
    ((chunks.foldl (fun s batch => batch.foldl (loadScriptT fails opts) s) st).isLoaded)
      = st.isLoaded := by
  induction chunks generalizing st with
  | nil => rfl
  | cons b rest ih => simp [List.foldl_cons, ih, isLoaded_foldl]

theorem inc_blogViewer_bv : stringIncludes blogViewerUrl "BlogViewerWidget" = true := by decide

theorem inc_group6_bv : stringIncludes group6Url "BlogViewerWidget" = false := by decide

theorem inc_formApp_bv : stringIncludes formAppUrl "BlogViewerWidget" = false := by decide

theorem inc_blogViewer_fa : stringIncludes blogViewerUrl "form-app" = false := by decide

theorem inc_group6_fa : stringIncludes group6Url "form-app" = false := by decide

theorem inc_formApp_fa : stringIncludes formAppUrl "form-app" = true := by decide

theorem reactScripts_eq : reactScripts = [reactUrl] := by decide

theorem otherScripts_eq : otherScripts = [requirejsUrl, consentPolicyUrl, animationsUrl] := by
  decide

/-- Optional-tier load initiations contributed by the on-demand idle callback. -/
def optPart (ric : Bool) (blogMarkers formMarkers : Nat) : List String :=
  if ric then
    (if 0 < blogMarkers then [blogViewerUrl] else [])
      ++ (if 0 < formMarkers then [formAppUrl] else [])
  else []

theorem initUrls_optBody (env : BEnv) (st : PState) :
    initUrls (loadOptionalScriptsBody env st).trace =
      initUrls st.trace ++ optPart true env.blogMarkers env.formMarkers := by
  by_cases h1 : 0 < env.blogMarkers <;> by_cases h2 : 0 < env.formMarkers <;>
    simp [loadOptionalScriptsBody, optPart, h1, h2, optionalScripts, List.foldl_cons,
      inc_blogViewer_bv, inc_group6_bv, inc_formApp_bv, inc_blogViewer_fa, inc_group6_fa,
      inc_formApp_fa, initUrls_loadScriptT]

theorem completeCount_optBody (env : BEnv) (st : PState) :
    completeCount (loadOptionalScriptsBody env st).trace = completeCount st.trace := by
  by_cases h1 : 0 < env.blogMarkers <;> by_cases h2 : 0 < env.formMarkers <;>
    simp [loadOptionalScriptsBody, h1, h2, optionalScripts, List.foldl_cons,
      inc_blogViewer_bv, inc_group6_bv, inc_formApp_bv, inc_blogViewer_fa, inc_group6_fa,
      inc_formApp_fa, completeCount_loadScriptT]

theorem errored_optBody (env : BEnv) (st : PState) :
    (loadOptionalScriptsBody env st).errored = st.errored := by
  by_cases h1 : 0 < env.blogMarkers <;> by_cases h2 : 0 < env.formMarkers <;>
    simp [loadOptionalScriptsBody, h1, h2, optionalScripts, List.foldl_cons,
      inc_blogViewer_bv, inc_group6_bv, inc_formApp_bv, inc_blogViewer_fa, inc_group6_fa,
      inc_formApp_fa, loadScriptT]

theorem isLoaded_optBody (env : BEnv) (st : PState) :
    (loadOptionalScriptsBody env st).isLoaded = st.isLoaded := by
  by_cases h1 : 0 < env.blogMarkers <;> by_cases h2 : 0 < env.formMarkers <;>
    simp [loadOptionalScriptsBody, h1, h2, optionalScripts, List.foldl_cons,
      inc_blogViewer_bv, inc_group6_bv, inc_formApp_bv, inc_blogViewer_fa, inc_group6_fa,
      inc_formApp_fa, loadScriptT]

theorem initUrls_onComplete (st : PState) :
    initUrls (onOptimizationComplete st).trace = initUrls st.trace := by
  simp [onOptimizationComplete, initUrls]

theorem completeCount_onComplete (st : PState) :
    completeCount (onOptimizationComplete st).trace = completeCount st.trace + 1 := by
  simp [onOptimizationComplete, completeCount, List.filter_append]

theorem initUrls_nil : initUrls [] = [] := rfl

theorem completeCount_nil : completeCount [] = 0 := rfl

/-- Master trace lemma: for every environment and every initial document, the
load initiations of one pass are exactly the critical scripts, then the react
loads, then the batched loads, then (when the idle primitive exists) the
marker-gated optional loads. -/
theorem initUrls_startOptimization (env : BEnv) (doc : List Elem) :
    initUrls (startOptimization env doc).trace =
      mainScripts ++ reactScripts ++ otherScripts
        ++ optPart env.ric env.blogMarkers env.formMarkers := by
  unfold startOptimization loadNonCriticalScripts loadCriticalScriptsChunked
  by_cases h : env.ric <;>
    simp [h, optPart, initUrls_foldl, initUrls_chunkFoldl, chunk2_join, initUrls_onComplete,
      initUrls_optBody, initUrls_nil, List.append_assoc]

/-- Master completion lemma: one pass dispatches the completion event exactly
once when `requestIdleCallback` exists and zero times when it does not. -/
theorem completeCount_startOptimization (env : BEnv) (doc : List Elem) :
    completeCount (startOptimization env doc).trace = if env.ric then 1 else 0 := by
  unfold startOptimization loadNonCriticalScripts loadCriticalScriptsChunked
  by_cases h : env.ric <;>
    simp [h, completeCount_foldl, completeCount_chunkFoldl, completeCount_onComplete,
      completeCount_optBody, completeCount_nil]

/-- Master abort lemma: the pass ends in the uncaught-exception state exactly
when `requestIdleCallback` is unavailable. -/
theorem errored_startOptimization (env : BEnv) (doc : List Elem) :
    (startOptimization env doc).errored = !env.ric := by
  unfold startOptimization loadNonCriticalScripts loadCriticalScriptsChunked
  by_cases h : env.ric <;>
    simp [h, errored_foldl, errored_chunkFoldl, errored_optBody, onOptimizationComplete]

end BlogList

/-! ## Helpers for the claim theorems -/

namespace BlogList

/-- Load initiations of one full pass (`initPerformanceOptimization`). -/
def pipelineInitUrls (env : BEnv) (doc : List Elem) : List String :=
  initUrls (initPerformanceOptimization env doc).trace

theorem pipelineInitUrls_eq (env : BEnv) (doc : List Elem) :
    pipelineInitUrls env doc =
      mainScripts ++ reactScripts ++ otherScripts
        ++ optPart env.ric env.blogMarkers env.formMarkers := by
  unfold pipelineInitUrls initPerformanceOptimization
  exact initUrls_startOptimization env (preloadResources doc)

/-- The early-resolution condition of `loadScript`: a script matching the file
name of `src` is present and not marked `data-blog-optimized`. -/
def alreadySatisfied (doc : List Elem) (src : String) : Bool :=
  match findExistingScript doc src with
  | some e => !(hasAttr e "data-blog-optimized")
  | none => false

theorem scriptSettle_fulfilled (fails : String → Bool) (src : String) :
    scriptSettle fails src = Settled.fulfilled := by
  cases h : fails src <;> simp [scriptSettle, h]

theorem loadScript_satisfied (fails : String → Bool) (doc : List Elem) (src : String)
    (opts : LoadOptions) (h : alreadySatisfied doc src = true) :
    loadScript fails doc src opts = (doc, Settled.fulfilled) := by
  unfold loadScript
  unfold alreadySatisfied at h
  cases hfind : findExistingScript doc src with
  | none => rw [hfind] at h; simp at h
  | some e =>
    rw [hfind] at h
    simp only [Bool.not_eq_true'] at h
    simp [h]

theorem loadScript_unsatisfied (fails : String → Bool) (doc : List Elem) (src : String)
    (opts : LoadOptions) (h : alreadySatisfied doc src = false) :
    loadScript fails doc src opts = (doc ++ [newScriptElem src opts], scriptSettle fails src) := by
  unfold loadScript
  unfold alreadySatisfied at h
  cases hfind : findExistingScript doc src with
  | none => simp
  | some e =>
    rw [hfind] at h
    simp only [Bool.not_eq_false'] at h
    simp [h]

theorem foldl_loadScript_satisfied (fails : String → Bool) (opts : LoadOptions) :
    ∀ (urls : List String) (doc : List Elem),
      (∀ u ∈ urls, alreadySatisfied doc u = true) →
      urls.foldl (fun d u => (loadScript fails d u opts).1) doc = doc := by
  intro urls
  induction urls with
  | nil => intro doc _; rfl
  | cons u rest ih =>
    intro doc h
    have h1 := loadScript_satisfied fails doc u opts (h u (by simp))
    rw [List.foldl_cons, h1]
    exact ih doc (fun x hx => h x (by simp [hx]))

end BlogList

/-- Index ordering across a split list: when nothing in the right part
satisfies `P` and nothing in the left part satisfies `Q`, every index holding
a `P`-element precedes every index holding a `Q`-element. -/
theorem get_lt_of_split {α : Type} (l1 l2 : List α) (P Q : α → Prop)
    (h2 : ∀ x ∈ l2, ¬ P x) (h1 : ∀ x ∈ l1, ¬ Q x) :
    ∀ i j u v, (l1 ++ l2).get? i = some u → (l1 ++ l2).get? j = some v →
      P u → Q v → i < j := by
  intro i j u v hi hj hPu hQv
  rcases Nat.lt_or_ge i l1.length with hil | hil
  · rcases Nat.lt_or_ge j l1.length with hjl | hjl
    · exfalso
      apply h1 v _ hQv
      rw [List.get?_append hjl] at hj
      exact List.get?_mem hj
    · exact Nat.lt_of_lt_of_le hil hjl
  · exfalso
    apply h2 u _ hPu
    rw [List.get?_append_right hil] at hi
    exact List.get?_mem hi

namespace ProductPage

theorem hasExistingPreload_mono (d ext : List Elem) (x : String)
    (h : hasExistingPreload d x = true) : hasExistingPreload (d ++ ext) x = true := by
  simp only [hasExistingPreload, List.any_append, Bool.or_eq_true]
  exact Or.inl h

theorem hasExistingPreload_self (d : List Elem) (x : String) :
    hasExistingPreload (d ++ [ppPreloadLink x]) x = true := by
  simp [hasExistingPreload, ppPreloadLink, List.any_append]

theorem hasExistingConn_mono (d ext : List Elem) (x : String × String × Bool)
    (h : hasExistingConn d x = true) : hasExistingConn (d ++ ext) x = true := by
  simp only [hasExistingConn, List.any_append, Bool.or_eq_true]
  exact Or.inl h

theorem hasExistingConn_self (d : List Elem) (x : String × String × Bool) :
    hasExistingConn (d ++ [connLink x]) x = true := by
  simp [hasExistingConn, connLink, List.any_append]

theorem enhanceScriptElem_marked (e : Elem) (h : hasAttr e "data-wix-optimized" = true) :
    enhanceScriptElem e = e := by
  simp [enhanceScriptElem, h]

theorem enhanceScriptElem_idem (e : Elem) :
    enhanceScriptElem (enhanceScriptElem e) = enhanceScriptElem e := by
  by_cases h1 : e.tag = Tag.script
  · by_cases h2 : hasAttr e "data-wix-optimized" = true
    · have he := enhanceScriptElem_marked e h2
      rw [he, he]
    · by_cases h3 : preloadableScripts.any (fun url => stringIncludes e.src (fileName url)) = true
      · have he : enhanceScriptElem e
            = setAttr (setAttr e "fetchpriority" "high") "data-wix-optimized" "enhanced" := by
          simp [enhanceScriptElem, h1, h2, h3]
        rw [he]
        exact enhanceScriptElem_marked _ (hasAttr_setAttr _ _ _)
      · by_cases h4 : deferableScripts.any (fun url => stringIncludes e.src (fileName url)) = true
        · by_cases h5 : (e.async || e.defer) = true
          · have he : enhanceScriptElem e = e := by
              simp [enhanceScriptElem, h1, h2, h3, h4, h5]
            rw [he, he]
          · have he : enhanceScriptElem e
                = setAttr { e with defer := true } "data-wix-optimized" "deferred" := by
              simp [enhanceScriptElem, h1, h2, h3, h4, h5]
            rw [he]
            exact enhanceScriptElem_marked _ (hasAttr_setAttr _ _ _)
        · have he : enhanceScriptElem e = e := by
            simp [enhanceScriptElem, h1, h2, h3, h4]
          rw [he, he]
  · have he : enhanceScriptElem e = e := by
      simp [enhanceScriptElem, h1]
    rw [he, he]

end ProductPage

namespace JSOpt

theorem jsEnhanceElem_marked (isMobile : Bool) (e : Elem)
    (h : hasAttr e "data-wix-optimized" = true) : enhanceScriptElem isMobile e = e := by
  simp [enhanceScriptElem, h]

theorem loading_ne_mark : ("loading" : String) ≠ "data-wix-optimized" := by decide

theorem jsEnhanceElem_idem (isMobile : Bool) (e : Elem) :
    enhanceScriptElem isMobile (enhanceScriptElem isMobile e) = enhanceScriptElem isMobile e := by
  by_cases h1 : e.tag = Tag.script
  · by_cases h2 : hasAttr e "data-wix-optimized" = true
    · have he := jsEnhanceElem_marked isMobile e h2
      rw [he, he]
    · by_cases h3 : jsMatches criticalScripts e.src = true
      · have he : enhanceScriptElem isMobile e
            = setAttr (setAttr e "fetchpriority" "high") "data-wix-optimized" "high-priority" := by
          simp [enhanceScriptElem, h1, h2, h3]
        rw [he]
        exact jsEnhanceElem_marked _ _ (hasAttr_setAttr _ _ _)
      · by_cases h4 : jsMatches deferableScripts e.src = true
        · by_cases h5 : (e.async || e.defer) = true
          · have he : enhanceScriptElem isMobile e = e := by
              simp [enhanceScriptElem, h1, h2, h3, h4, h5]
            rw [he, he]
          · by_cases hm : isMobile = true
            · have he : enhanceScriptElem isMobile e
                  = setAttr (setAttr { e with defer := true } "data-wix-optimized" "deferred")
                      "loading" "lazy" := by
                simp [enhanceScriptElem, h1, h2, h3, h4, h5, hm]
              rw [he]
              refine jsEnhanceElem_marked _ _ ?_
              rw [hasAttr_setAttr_other _ _ _ _ loading_ne_mark]
              exact hasAttr_setAttr _ _ _
            · have he : enhanceScriptElem isMobile e
                  = setAttr { e with defer := true } "data-wix-optimized" "deferred" := by
                simp [enhanceScriptElem, h1, h2, h3, h4, h5, hm]
              rw [he]
              exact jsEnhanceElem_marked _ _ (hasAttr_setAttr _ _ _)
        · by_cases h6 : jsMatches optionalScripts e.src = true
          · by_cases hm : isMobile = true
            · have he : enhanceScriptElem isMobile e
                  = setAttr (setAttr (setAttr e "fetchpriority" "low")
                      "data-wix-optimized" "low-priority") "loading" "lazy" := by
                simp [enhanceScriptElem, h1, h2, h3, h4, h6, hm]
              rw [he]
              refine jsEnhanceElem_marked _ _ ?_
              rw [hasAttr_setAttr_other _ _ _ _ loading_ne_mark]
              exact hasAttr_setAttr _ _ _
            · have he : enhanceScriptElem isMobile e
                  = setAttr (setAttr e "fetchpriority" "low") "data-wix-optimized" "low-priority" := by
                simp [enhanceScriptElem, h1, h2, h3, h4, h6, hm]
              rw [he]
              exact jsEnhanceElem_marked _ _ (hasAttr_setAttr _ _ _)
          · have he : enhanceScriptElem isMobile e = e := by
              simp [enhanceScriptElem, h1, h2, h3, h4, h6]
            rw [he, he]
  · have he : enhanceScriptElem isMobile e = e := by
      simp [enhanceScriptElem, h1]
    rw [he, he]

end JSOpt

namespace BlogList

theorem loadScript_settles (fails : String → Bool) (doc : List Elem) (src : String)
    (opts : LoadOptions) : (loadScript fails doc src opts).2 = Settled.fulfilled := by
  cases h : alreadySatisfied doc src with
  | false =>
    rw [loadScript_unsatisfied fails doc src opts h]
    exact scriptSettle_fulfilled fails src
  | true =>
    rw [loadScript_satisfied fails doc src opts h]

theorem optPart_mem (ric : Bool) (bm fm : Nat) :
    ∀ x ∈ optPart ric bm fm, x = blogViewerUrl ∨ x = formAppUrl := by
  intro x hx
  unfold optPart at hx
  by_cases hr : ric = true
  · by_cases hb : 0 < bm <;> by_cases hf : 0 < fm <;>
      simp [hr, hb, hf] at hx <;> tauto
  · simp [hr] at hx

theorem optPart_filter_nil (p : String → Bool) (ric : Bool) (bm fm : Nat)
    (hbv : p blogViewerUrl = false) (hfa : p formAppUrl = false) :
    (optPart ric bm fm).filter p = [] := by
  rw [List.filter_eq_nil_iff]
  intro x hx
  rcases optPart_mem ric bm fm x hx with rfl | rfl <;> simp [hbv, hfa]

theorem optPart_zero (ric : Bool) : optPart ric 0 0 = [] := by
  cases ric <;> simp [optPart]

theorem reactScripts_append_otherScripts : reactScripts ++ otherScripts = deferredScripts := by
  decide

theorem isLoaded_startOptimization (env : BEnv) (doc : List Elem) :
    (startOptimization env doc).isLoaded = env.ric := by
  unfold startOptimization loadNonCriticalScripts loadCriticalScriptsChunked
  by_cases h : env.ric <;>
    simp [h, isLoaded_foldl, isLoaded_chunkFoldl, isLoaded_optBody, onOptimizationComplete]

/-- Script element representing a resource already present on the page:
`src` is the exact managed URL, no attributes. -/
def satisfiedScriptFor (url : String) : Elem :=
  { tag := Tag.script, src := url, rel := "", defer := false, async := false, attrs := [] }

/-- A page on which every managed script element is already present, together
with all the hint elements the hint phase would add. -/
def satisfiedDoc : List Elem :=
  allScripts.map satisfiedScriptFor
    ++ mainScripts.map preloadLink
    ++ [dnsPrefetchElem, preconnectElem]

/-- A page holding exactly the managed script elements, unmarked. -/
def satisfiedScriptsOnly : List Elem := allScripts.map satisfiedScriptFor

/-- Benign environment: `requestIdleCallback` available, no load failures, no
optional-tier marker elements. -/
def benignEnv : BEnv := ⟨true, fun _ => false, 0, 0⟩

/-- A script element whose URL differs from every managed URL but whose file
name coincides with the react bundle's. -/
def mismatchElem : Elem :=
  { tag := Tag.script, src := "https://evil.example/react.production.min.js", rel := "",
    defer := false, async := false, attrs := [] }

end BlogList

namespace ProductPage

theorem recordScriptError_nonfatal (st : PPState) (src : String) :
    (recordScriptError st src).isLoaded = st.isLoaded
      ∧ (recordScriptError st src).dispatched = st.dispatched := by
  unfold recordScriptError
  split <;> simp

theorem onComplete_iterate (ipp : Bool) : ∀ n : Nat,
    ((onOptimizationComplete ipp)^[n + 1] freshPP).isLoaded = true
      ∧ ((onOptimizationComplete ipp)^[n + 1] freshPP).dispatched.length = 1 := by
  intro n
  induction n with
  | zero => simp [onOptimizationComplete, freshPP]
  | succ n ih =>
    have hstep : (onOptimizationComplete ipp)^[n + 1 + 1] freshPP
        = onOptimizationComplete ipp ((onOptimizationComplete ipp)^[n + 1] freshPP) :=
      Function.iterate_succ_apply' _ _ _
    rw [hstep]
    simp only [onOptimizationComplete, ih.1, if_true]
    exact ⟨trivial, ih.2⟩

end ProductPage

/-! ## Claim theorems -/

/-- C1: for every environment and every initial document, every Critical-tier
(main) script load is initiated strictly before any Medium/Deferred-tier
script load; within the deferred tier the initiations keep insertion order
(their subsequence equals `deferredScripts` itself), and likewise for the
critical tier — the pipeline only runs the non-critical loader after the
critical loader's promise resolves. -/
theorem C1_critical_before_noncritical (env : BlogList.BEnv) (doc : List Elem) :
    (∀ i j u v, (BlogList.pipelineInitUrls env doc).get? i = some u →
        (BlogList.pipelineInitUrls env doc).get? j = some v →
        u ∈ BlogList.mainScripts → v ∈ BlogList.deferredScripts → i < j)
    ∧ (BlogList.pipelineInitUrls env doc).filter
        (fun u => decide (u ∈ BlogList.deferredScripts)) = BlogList.deferredScripts
    ∧ (BlogList.pipelineInitUrls env doc).filter
        (fun u => decide (u ∈ BlogList.mainScripts)) = BlogList.mainScripts := by
  have hm2 : BlogList.pipelineInitUrls env doc
      = BlogList.mainScripts ++ (BlogList.reactScripts ++ (BlogList.otherScripts
          ++ BlogList.optPart env.ric env.blogMarkers env.formMarkers)) := by
    rw [BlogList.pipelineInitUrls_eq]
    simp [List.append_assoc]
  have hdm : ∀ x ∈ BlogList.deferredScripts, ¬ x ∈ BlogList.mainScripts := by decide
  have hmd : ∀ x ∈ BlogList.mainScripts, ¬ x ∈ BlogList.deferredScripts := by decide
  refine ⟨?_, ?_, ?_⟩
  · rw [hm2]
    refine get_lt_of_split _ _ (fun u => u ∈ BlogList.mainScripts)
      (fun v => v ∈ BlogList.deferredScripts) ?_ hmd
    intro x hx
    rcases List.mem_append.1 hx with h | h
    · exact hdm x (List.mem_filter.1 h).1
    · rcases List.mem_append.1 h with h2 | h2
      · exact hdm x (List.mem_filter.1 h2).1
      · rcases BlogList.optPart_mem _ _ _ x h2 with rfl | rfl <;> decide
  · rw [hm2, List.filter_append, List.filter_append, List.filter_append]
    have f1 : BlogList.mainScripts.filter
        (fun u => decide (u ∈ BlogList.deferredScripts)) = [] := by decide
    have f2 : BlogList.reactScripts.filter
        (fun u => decide (u ∈ BlogList.deferredScripts)) = [BlogList.reactUrl] := by decide
    have f3 : BlogList.otherScripts.filter
        (fun u => decide (u ∈ BlogList.deferredScripts))
          = [BlogList.requirejsUrl, BlogList.consentPolicyUrl, BlogList.animationsUrl] := by decide
    have f4 := BlogList.optPart_filter_nil
      (fun u => decide (u ∈ BlogList.deferredScripts)) env.ric env.blogMarkers env.formMarkers
      (by decide) (by decide)
    rw [f1, f2, f3, f4]
    decide
  · rw [hm2, List.filter_append, List.filter_append, List.filter_append]
    have g1 : BlogList.mainScripts.filter
        (fun u => decide (u ∈ BlogList.mainScripts)) = BlogList.mainScripts := by decide
    have g2 : BlogList.reactScripts.filter
        (fun u => decide (u ∈ BlogList.mainScripts)) = [] := by decide
    have g3 : BlogList.otherScripts.filter
        (fun u => decide (u ∈ BlogList.mainScripts)) = [] := by decide
    have g4 := BlogList.optPart_filter_nil
      (fun u => decide (u ∈ BlogList.mainScripts)) env.ric env.blogMarkers env.formMarkers
      (by decide) (by decide)
    rw [g1, g2, g3, g4]
    decide

/-- C1 witness: in a concrete pass the first initiation is the critical main
bundle, the third is the deferred react bundle, and the order theorem applies
to them. -/
theorem C1_witness :
    (BlogList.pipelineInitUrls BlogList.benignEnv []).get? 0 = some BlogList.mainBundleUrl
    ∧ (BlogList.pipelineInitUrls BlogList.benignEnv []).get? 2 = some BlogList.reactUrl
    ∧ (0 : Nat) < 2 :=
  ⟨by decide, by decide,
    (C1_critical_before_noncritical BlogList.benignEnv []).1 0 2
      BlogList.mainBundleUrl BlogList.reactUrl
      (by decide) (by decide) (by decide) (by decide)⟩

/-- C2 counterexample: the blog-list `onOptimizationComplete` has no
idempotence guard — invoking it re-entrantly (twice from a fresh pass state)
dispatches the completion event twice, so the claimed guard does not exist in
`src/wix-blog-list-optimizer.js`. -/
theorem C2_counterexample :
    BlogList.completeCount
      (BlogList.onOptimizationComplete
        (BlogList.onOptimizationComplete ⟨[], [], false, false⟩)).trace = 2 := by
  decide

/-- C2 (amended): the product optimizer's `onOptimizationComplete` carries the
guard — once `isLoaded` is set every further invocation is a no-op, so any
positive number of invocations dispatches exactly one completion record; the
blog-list optimizer has no guard, but its pipeline invokes completion exactly
once per pass, so a pass with `requestIdleCallback` available still dispatches
exactly once. -/
theorem C2_completion_dispatched_once (ipp : Bool) :
    (∀ st : ProductPage.PPState, st.isLoaded = true →
      ProductPage.onOptimizationComplete ipp st = st)
    ∧ (∀ n : Nat,
        ((ProductPage.onOptimizationComplete ipp)^[n + 1] ProductPage.freshPP).dispatched.length
          = 1)
    ∧ (∀ (fails : String → Bool) (bm fm : Nat) (doc : List Elem),
        BlogList.completeCount
          (BlogList.initPerformanceOptimization ⟨true, fails, bm, fm⟩ doc).trace = 1) := by
  refine ⟨?_, fun n => (ProductPage.onComplete_iterate ipp n).2, ?_⟩
  · intro st h
    simp [ProductPage.onOptimizationComplete, h]
  · intro fails bm fm doc
    have h := BlogList.completeCount_startOptimization ⟨true, fails, bm, fm⟩
      (BlogList.preloadResources doc)
    simpa [BlogList.initPerformanceOptimization] using h

/-- C2 witness: the guard applied to a concrete already-completed state is a
no-op. -/
theorem C2_witness :
    ProductPage.onOptimizationComplete true ⟨true, [], []⟩ = ⟨true, [], []⟩ :=
  (C2_completion_dispatched_once true).1 ⟨true, [], []⟩ rfl

/-- C3: the non-react deferred scripts are sliced into batches of size two;
for every failure assignment (any subset of the URLs may fail to load), the
initiations of one pass still contain every batched script in insertion
order, the pass still dispatches its completion event exactly once, and the
loading primitive's promise always fulfills (never rejects), which is the
"wait for all, ignore individual errors" join. -/
theorem C3_batch_failure_isolation (fails : String → Bool) (bm fm : Nat)
    (doc : List Elem) :
    BlogList.chunk2 BlogList.otherScripts
        = [[BlogList.requirejsUrl, BlogList.consentPolicyUrl], [BlogList.animationsUrl]]
    ∧ (BlogList.pipelineInitUrls ⟨true, fails, bm, fm⟩ doc).filter
        (fun u => decide (u ∈ BlogList.otherScripts)) = BlogList.otherScripts
    ∧ BlogList.completeCount
        (BlogList.initPerformanceOptimization ⟨true, fails, bm, fm⟩ doc).trace = 1
    ∧ (∀ (d : List Elem) (src : String) (opts : BlogList.LoadOptions),
        (BlogList.loadScript fails d src opts).2 = BlogList.Settled.fulfilled) := by
  refine ⟨by decide, ?_, ?_, fun d src opts => BlogList.loadScript_settles fails d src opts⟩
  · have hm2 : BlogList.pipelineInitUrls ⟨true, fails, bm, fm⟩ doc
        = BlogList.mainScripts ++ (BlogList.reactScripts ++ (BlogList.otherScripts
            ++ BlogList.optPart true bm fm)) := by
      rw [BlogList.pipelineInitUrls_eq]
      simp [List.append_assoc]
    rw [hm2, List.filter_append, List.filter_append, List.filter_append]
    have f1 : BlogList.mainScripts.filter
        (fun u => decide (u ∈ BlogList.otherScripts)) = [] := by decide
    have f2 : BlogList.reactScripts.filter
        (fun u => decide (u ∈ BlogList.otherScripts)) = [] := by decide
    have f3 : BlogList.otherScripts.filter
        (fun u => decide (u ∈ BlogList.otherScripts)) = BlogList.otherScripts := by decide
    have f4 := BlogList.optPart_filter_nil
      (fun u => decide (u ∈ BlogList.otherScripts)) true bm fm (by decide) (by decide)
    rw [f1, f2, f3, f4]
    decide
  · have h := BlogList.completeCount_startOptimization ⟨true, fails, bm, fm⟩
      (BlogList.preloadResources doc)
    simpa [BlogList.initPerformanceOptimization] using h

/-- C5: when `requestIdleCallback` is unavailable, `scheduleNonCriticalLoading`
does substitute a `setTimeout` fallback, but `loadOptionalScriptsOnDemand`
calls `requestIdleCallback` unconditionally — the resulting `ReferenceError`
aborts `loadNonCriticalScripts` before `onOptimizationComplete`, so for every
document and failure assignment the pass ends in the uncaught-exception state,
never dispatches its completion event and never sets `isLoaded`: the pipeline
does not reach Complete, contradicting the claim. -/
theorem C5_no_fallback_at_optional_phase (fails : String → Bool) (bm fm : Nat)
    (doc : List Elem) :
    (BlogList.initPerformanceOptimization ⟨false, fails, bm, fm⟩ doc).errored = true
    ∧ BlogList.completeCount
        (BlogList.initPerformanceOptimization ⟨false, fails, bm, fm⟩ doc).trace = 0
    ∧ (BlogList.initPerformanceOptimization ⟨false, fails, bm, fm⟩ doc).isLoaded = false := by
  refine ⟨?_, ?_, ?_⟩
  · simpa [BlogList.initPerformanceOptimization] using
      BlogList.errored_startOptimization ⟨false, fails, bm, fm⟩ (BlogList.preloadResources doc)
  · simpa [BlogList.initPerformanceOptimization] using
      BlogList.completeCount_startOptimization ⟨false, fails, bm, fm⟩
        (BlogList.preloadResources doc)
  · simpa [BlogList.initPerformanceOptimization] using
      BlogList.isLoaded_startOptimization ⟨false, fails, bm, fm⟩ (BlogList.preloadResources doc)

/-- C9: with zero blog-viewer marker elements and zero form marker elements,
a pass initiates exactly the critical and deferred loads — no Optional-tier
URL is ever initiated (the filter over the optional list is empty), whether
or not the idle primitive is available. -/
theorem C9_no_optional_without_markers (ric : Bool) (fails : String → Bool) (doc : List Elem) :
    BlogList.pipelineInitUrls ⟨ric, fails, 0, 0⟩ doc
        = BlogList.mainScripts ++ BlogList.deferredScripts
    ∧ (BlogList.pipelineInitUrls ⟨ric, fails, 0, 0⟩ doc).filter
        (fun u => decide (u ∈ BlogList.optionalScripts)) = [] := by
  have h0 : BlogList.pipelineInitUrls ⟨ric, fails, 0, 0⟩ doc
      = BlogList.mainScripts ++ BlogList.deferredScripts := by
    rw [BlogList.pipelineInitUrls_eq]
    show BlogList.mainScripts ++ BlogList.reactScripts ++ BlogList.otherScripts
        ++ BlogList.optPart ric 0 0 = _
    rw [BlogList.optPart_zero, List.append_nil, List.append_assoc,
      BlogList.reactScripts_append_otherScripts]
  exact ⟨h0, by rw [h0]; decide⟩

/-- C4 counterexample: the duplicate check of `loadScript` matches by file-name
substring, not by URL identity.  On a page whose only element carries a
different URL with the same file name, no element references the requested
URL, yet `loadScript` resolves immediately and creates nothing — refuting
"looks for an already-present element referencing the same URL; … otherwise it
creates exactly one new script element". -/
theorem C4_counterexample :
    ([BlogList.mismatchElem].filter (fun e => decide (e.src = BlogList.reactUrl))).length = 0
    ∧ BlogList.loadScript (fun _ => false) [BlogList.mismatchElem]
        BlogList.reactUrl BlogList.reactOpts
      = ([BlogList.mismatchElem], BlogList.Settled.fulfilled) :=
  ⟨by decide, by decide⟩

/-- C4 (amended): `loadScript` keys its duplicate suppression on the URL's
file name (last path segment), not the exact URL: when a script element whose
`src` contains that file name exists and is not marked `data-blog-optimized`,
the primitive resolves immediately and creates no element; otherwise it
appends exactly one new script element carrying the classification flags; and
its promise fulfills on load success and on load failure alike — a failure is
logged, never propagated as a rejection. -/
theorem C4_loadScript_characterization (fails : String → Bool) (doc : List Elem)
    (src : String) (opts : BlogList.LoadOptions) :
    (BlogList.alreadySatisfied doc src = true →
      BlogList.loadScript fails doc src opts = (doc, BlogList.Settled.fulfilled))
    ∧ (BlogList.alreadySatisfied doc src = false →
      BlogList.loadScript fails doc src opts
        = (doc ++ [BlogList.newScriptElem src opts], BlogList.Settled.fulfilled))
    ∧ (BlogList.loadScript fails doc src opts).2 = BlogList.Settled.fulfilled := by
  refine ⟨fun h => BlogList.loadScript_satisfied fails doc src opts h, fun h => ?_,
    BlogList.loadScript_settles fails doc src opts⟩
  rw [BlogList.loadScript_unsatisfied fails doc src opts h,
    BlogList.scriptSettle_fulfilled fails src]

/-- C4 witness: on a page already holding the react script element unmarked,
the primitive resolves without touching the document, even when every load
would fail. -/
theorem C4_witness :
    BlogList.loadScript (fun _ => true) [BlogList.satisfiedScriptFor BlogList.reactUrl]
        BlogList.reactUrl BlogList.reactOpts
      = ([BlogList.satisfiedScriptFor BlogList.reactUrl], BlogList.Settled.fulfilled) :=
  (C4_loadScript_characterization (fun _ => true)
    [BlogList.satisfiedScriptFor BlogList.reactUrl] BlogList.reactUrl BlogList.reactOpts).1
    (by decide)

/-- C6 counterexample: the blog-list hint phase `preloadResources` appends its
preload hints unconditionally — run on a document that already contains every
hint it produces, it appends them again, leaving two preload links for the
main bundle URL.  The "only if not already present" check exists in the
product optimizer, not here. -/
theorem C6_counterexample :
    ((BlogList.preloadResources (BlogList.preloadResources [])).filter
        (fun e => decide (e.tag = Tag.link ∧ e.rel = "preload"
          ∧ e.src = BlogList.mainBundleUrl))).length = 2 := by
  decide

/-- C6 (amended): the product optimizer's hint phase is idempotent — both its
preload hints (checked by exact URL) and its connection hints (checked by
relation and href) are appended only when absent, so a second run adds
nothing. -/
theorem C6_product_hint_phase_idempotent (doc : List Elem) :
    ProductPage.addResourcePreloads (ProductPage.addResourcePreloads doc)
      = ProductPage.addResourcePreloads doc := by
  unfold ProductPage.addResourcePreloads ProductPage.addConnectionOptimizations
  set d1 := addMissing ProductPage.hasExistingPreload ProductPage.ppPreloadLink doc
    ProductPage.preloadableScripts with hd1
  set d2 := addMissing ProductPage.hasExistingConn ProductPage.connLink d1
    ProductPage.connOpts with hd2
  have hcov1 : ∀ x ∈ ProductPage.preloadableScripts,
      ProductPage.hasExistingPreload d1 x = true :=
    addMissing_covers _ _ ProductPage.hasExistingPreload_mono
      ProductPage.hasExistingPreload_self _ doc
  have hcov1' : ∀ x ∈ ProductPage.preloadableScripts,
      ProductPage.hasExistingPreload d2 x = true := by
    intro x hx
    obtain ⟨ext, hext⟩ := addMissing_ext ProductPage.hasExistingConn ProductPage.connLink
      ProductPage.connOpts d1
    rw [hd2, hext]
    exact ProductPage.hasExistingPreload_mono _ _ _ (hcov1 x hx)
  have h2 : addMissing ProductPage.hasExistingPreload ProductPage.ppPreloadLink d2
      ProductPage.preloadableScripts = d2 :=
    addMissing_of_covered _ _ _ _ hcov1'
  rw [h2]
  exact addMissing_of_covered _ _ _ _
    (addMissing_covers _ _ ProductPage.hasExistingConn_mono ProductPage.hasExistingConn_self _ d1)

/-- C7 counterexample: one full pass on a page where every managed resource
element is already present (all scripts, all hints) produces duplicates: the
hint phase appends a second preload link for the main bundle, and — because
`removeExistingScripts` first marks the present scripts for replacement —
`loadScript` re-injects a second script element for the main bundle as well. -/
theorem C7_counterexample :
    (((BlogList.initPerformanceOptimization BlogList.benignEnv BlogList.satisfiedDoc).doc.filter
        (fun e => decide (e.tag = Tag.link ∧ e.rel = "preload"
          ∧ e.src = BlogList.mainBundleUrl))).length = 2)
    ∧ (((BlogList.initPerformanceOptimization BlogList.benignEnv BlogList.satisfiedDoc).doc.filter
        (fun e => decide (e.tag = Tag.script)
          && stringIncludes e.src (fileName BlogList.mainBundleUrl))).length = 2) :=
  ⟨by decide, by decide⟩

/-- C7 (amended): duplicate suppression holds only at the level of the loading
primitive: on a page whose managed script elements are all present and not
marked for replacement, loading every managed URL leaves the document exactly
unchanged — no duplicate element is created.  The full pipeline, by contrast,
first marks those elements for replacement and appends hints unconditionally,
so a full pass over an already-satisfied page does create duplicates. -/
theorem C7_satisfied_page_loads_nothing (fails : String → Bool) (opts : BlogList.LoadOptions)
    (doc : List Elem)
    (h : ∀ u ∈ BlogList.allScripts, BlogList.alreadySatisfied doc u = true) :
    BlogList.allScripts.foldl (fun d u => (BlogList.loadScript fails d u opts).1) doc = doc :=
  BlogList.foldl_loadScript_satisfied fails opts BlogList.allScripts doc h

/-- C7 witness: the page holding exactly the nine managed script elements,
unmarked, is left untouched by loading all nine URLs. -/
theorem C7_witness :
    BlogList.allScripts.foldl
        (fun d u => (BlogList.loadScript (fun _ => false) d u BlogList.batchOpts).1)
        BlogList.satisfiedScriptsOnly
      = BlogList.satisfiedScriptsOnly :=
  C7_satisfied_page_loads_nothing (fun _ => false) BlogList.batchOpts
    BlogList.satisfiedScriptsOnly (by decide)

/-- C8 counterexample: `startOptimization` of the blog-list optimizer has no
`try`/`catch` — an unexpected exception during its setup steps propagates,
aborting the pass with no completion record emitted at all, refuting
"immediately emits a completion record marked degraded" for that cited
symbol. -/
theorem C8_counterexample :
    BlogList.completeCount (BlogList.startOptimizationSetupFailure []).trace = 0
    ∧ (BlogList.startOptimizationSetupFailure []).errored = true :=
  ⟨rfl, rfl⟩

/-- C8 (amended): in the product optimizer an unexpected exception inside
setup step `i` is fatal to the pass: exactly the `i` earlier steps have run
and none after, and the `catch` handler immediately dispatches one completion
record — the ordinary record (`method = 'safe-enhancement'`, identical to the
one a normal completion emits; nothing marks it degraded) — with no automatic
retry; individual resource-load failures are never fatal: the error listener
only records the URL, changing neither the guard flag nor the dispatched
records.  In the blog-list optimizer the same exception aborts the pass
without emitting any record. -/
theorem C8_setup_exception_fatal (i : Nat) (ipp : Bool) (doc : List Elem) (h : i < 4) :
    (ProductPage.startSafeOptimization (some i) ipp doc ProductPage.freshPP).2.2 = i
    ∧ (ProductPage.startSafeOptimization (some i) ipp doc ProductPage.freshPP).2.1.isLoaded = true
    ∧ (ProductPage.startSafeOptimization (some i) ipp doc ProductPage.freshPP).2.1.dispatched
        = [⟨ipp, [], "safe-enhancement"⟩]
    ∧ (ProductPage.startSafeOptimization (some i) ipp doc ProductPage.freshPP).2.1.dispatched
        = (ProductPage.onOptimizationComplete ipp ProductPage.freshPP).dispatched
    ∧ (∀ (st : ProductPage.PPState) (src : String),
        (ProductPage.recordScriptError st src).isLoaded = st.isLoaded
        ∧ (ProductPage.recordScriptError st src).dispatched = st.dispatched) := by
  refine ⟨?_, ?_, ?_, ?_, fun st src => ProductPage.recordScriptError_nonfatal st src⟩ <;>
    simp [ProductPage.startSafeOptimization, h, ProductPage.onOptimizationComplete,
      ProductPage.freshPP]

/-- C8 witness: an exception in the second setup step leaves exactly one step
run and one ordinary completion record dispatched. -/
theorem C8_witness :
    (ProductPage.startSafeOptimization (some 1) true [] ProductPage.freshPP).2.2 = 1
    ∧ (ProductPage.startSafeOptimization (some 1) true [] ProductPage.freshPP).2.1.dispatched
        = [⟨true, [], "safe-enhancement"⟩] :=
  ⟨(C8_setup_exception_fatal 1 true [] (by decide)).1,
   (C8_setup_exception_fatal 1 true [] (by decide)).2.2.1⟩

/-- C10: both `enhanceExistingScripts` variants are idempotent — a second run
over any document changes nothing, because every branch that modifies a
script also stamps it `data-wix-optimized` and stamped scripts are never
modified again (the per-element no-op on already-stamped scripts is stated
explicitly for each class). -/
theorem C10_enhance_existing_scripts_idempotent :
    (∀ doc : List Elem,
      ProductPage.enhanceExistingScripts (ProductPage.enhanceExistingScripts doc)
        = ProductPage.enhanceExistingScripts doc)
    ∧ (∀ (m : Bool) (doc : List Elem),
      JSOpt.enhanceExistingScripts m (JSOpt.enhanceExistingScripts m doc)
        = JSOpt.enhanceExistingScripts m doc)
    ∧ (∀ e : Elem, hasAttr e "data-wix-optimized" = true →
        ProductPage.enhanceScriptElem e = e)
    ∧ (∀ (m : Bool) (e : Elem), hasAttr e "data-wix-optimized" = true →
        JSOpt.enhanceScriptElem m e = e) := by
  refine ⟨?_, ?_, fun e h => ProductPage.enhanceScriptElem_marked e h,
    fun m e h => JSOpt.jsEnhanceElem_marked m e h⟩
  · intro doc
    unfold ProductPage.enhanceExistingScripts
    rw [List.map_map]
    exact List.map_congr_left (fun e _ => ProductPage.enhanceScriptElem_idem e)
  · intro m doc
    unfold JSOpt.enhanceExistingScripts
    rw [List.map_map]
    exact List.map_congr_left (fun e _ => JSOpt.jsEnhanceElem_idem m e)

/-- C10 witness: a concrete already-stamped script element is left unchanged. -/
theorem C10_witness :
    ProductPage.enhanceScriptElem
        ⟨Tag.script, "x.js", "", false, false, [("data-wix-optimized", "true")]⟩
      = ⟨Tag.script, "x.js", "", false, false, [("data-wix-optimized", "true")]⟩ :=
  C10_enhance_existing_scripts_idempotent.2.2.1
    ⟨Tag.script, "x.js", "", false, false, [("data-wix-optimized", "true")]⟩ (by decide)
